import Mathlib

/-!
Verification of `examples/pipelines/rag/sql_db_assistant_pipeline.py`.

The file shallowly embeds the executed logic of the `Pipeline` class:
configuration loading in `__init__` (lines 30-51), pipeline registration in
`set_pipelines` (lines 53-70), and the request/response logic of `pipe`
(lines 87-120).  Python JSON values become the inductive `Json`; the Python
exceptions that can arise on the executed path become `PyExc`; the outcome of
the single `requests.post` call (either a transport-level failure raising
`requests.exceptions.RequestException`, or an HTTP response carrying a status
code, a reason phrase and a parsed JSON body) becomes `HttpOutcome`.
A malformed (non-JSON) response body is not modelled: `r.json()` is taken to
succeed, matching every scenario the specification discusses.
-/

/-- Python/JSON values as produced by `r.json()` and used in the request
payload.  Object keys coming from a parsed JSON document are unique, so an
association list with first-match lookup models a Python `dict` faithfully. -/
inductive Json where
  | str : String → Json
  | num : Int → Json
  | bool : Bool → Json
  | arr : List Json → Json
  | obj : List (String × Json) → Json
  | null : Json

/-- The Python exceptions that can be raised on the executed path of `pipe`:
`requests.exceptions.RequestException` (covering transport errors and the
`HTTPError` raised by `raise_for_status`), and the subscripting/attribute
errors that `r.json()["choices"][0]["message"]["content"].strip()` can raise.
-/
inductive PyExc where
  | requestException : String → PyExc
  | keyError : PyExc
  | indexError : PyExc
  | typeError : PyExc
  | attributeError : PyExc
deriving DecidableEq

/-- The ASCII whitespace characters removed by Python `str.strip()`
(`" \t\n\r\x0b\x0c"`; the further Unicode whitespace Python also strips does
not occur in any scenario considered here). -/
def pyIsSpace (c : Char) : Bool :=
  c = ' ' || c = '\t' || c = '\n' || c = '\r' || c = '\x0b' || c = '\x0c'

/-- Python `str.strip()`: drop leading and trailing whitespace. -/
def pyStrip (s : String) : String :=
  ⟨((s.data.dropWhile pyIsSpace).reverse.dropWhile pyIsSpace).reverse⟩

/-- Python subscripting `j[k]` with a string key `k`.  On a `dict` a missing
key raises `KeyError`; subscripting a list, string, number, boolean or `None`
with a string key raises `TypeError`. -/
def Json.getKey : Json → String → Except PyExc Json
  | .obj kvs, k =>
    match kvs.lookup k with
    | some v => .ok v
    | none => .error .keyError
  | _, _ => .error .typeError

/-- Python subscripting `j[i]` with a non-negative integer index `i`.  On a
list an out-of-range index raises `IndexError`; on a string it yields the
one-character string at that position (or raises `IndexError`); on a `dict`
whose keys are strings an integer key is absent, raising `KeyError`; on a
number, boolean or `None` it raises `TypeError`. -/
def Json.getIdx : Json → Nat → Except PyExc Json
  | .arr xs, i =>
    match xs.get? i with
    | some v => .ok v
    | none => .error .indexError
  | .str s, i =>
    match s.data.get? i with
    | some c => .ok (.str ⟨[c]⟩)
    | none => .error .indexError
  | .obj _, _ => .error .keyError
  | _, _ => .error .typeError

/-- Python `j.strip()`: defined on strings, raises `AttributeError` on every
other JSON value. -/
def Json.stripAttr : Json → Except PyExc String
  | .str s => .ok (pyStrip s)
  | _ => .error .attributeError

/-- The `Pipeline.Valves` pydantic model (lines 18-28): the nine
configuration strings. -/
structure Valves where
  AZURE_OPENAI_API_KEY : String
  AZURE_OPENAI_ENDPOINT : String
  AZURE_OPENAI_API_VERSION : String
  AZURE_OPENAI_MODEL : String
  SQL_SERVER : String
  SQL_DATABASE : String
  SQL_USERNAME : String
  SQL_PASSWORD : String
  SQL_DRIVER : String

/-- The fixed instruction text of `pipe` (lines 100-104): the prompt is this
text with the raw `user_message` appended. -/
def instructionText : String :=
  "Convert the following user request into a syntactically correct SQL query for PostgreSQL. Make sure the query is safe and uses best practices. If filtering by a date, use YYYY-MM-DD format. User Request: "

/-- The prompt built by `pipe` (lines 100-104). -/
def buildPrompt (user_message : String) : String :=
  instructionText ++ user_message

/-- The request URL built by `pipe` (line 99). -/
def buildUrl (v : Valves) : String :=
  v.AZURE_OPENAI_ENDPOINT ++ "/openai/deployments/" ++ v.AZURE_OPENAI_MODEL
    ++ "/chat/completions?api-version=" ++ v.AZURE_OPENAI_API_VERSION

/-- The request headers built by `pipe` (lines 93-96). -/
def buildHeaders (v : Valves) : List (String × String) :=
  [("api-key", v.AZURE_OPENAI_API_KEY), ("Content-Type", "application/json")]

/-- The JSON request payload built by `pipe` (lines 105-108). -/
def buildPayload (v : Valves) (user_message : String) : Json :=
  .obj [("model", .str v.AZURE_OPENAI_MODEL),
        ("messages", .arr [.obj [("role", .str "user"),
                                 ("content", .str (buildPrompt user_message))]])]

/-- The single outbound HTTP request of `pipe`. -/
structure HttpRequest where
  url : String
  headers : List (String × String)
  payload : Json

/-- The outbound request assembled by `pipe` from the valves and the user
message (lines 93-108). -/
def buildRequest (v : Valves) (user_message : String) : HttpRequest :=
  { url := buildUrl v
    headers := buildHeaders v
    payload := buildPayload v user_message }

/-- The outcome of the `requests.post` call in `pipe` (line 111): either a
transport-level failure (connection error, timeout, ...) raising a
`RequestException` carrying a message, or an HTTP response with a status
code, a reason phrase and a parsed JSON body. -/
inductive HttpOutcome where
  | transportError : String → HttpOutcome
  | response : Nat → String → Json → HttpOutcome

/-- The message of the `HTTPError` raised by `Response.raise_for_status` for
a status code in 400-599 (from `requests/models.py`): client errors for
400-499, server errors for 500-599.  `raise_for_status` raises for no other
status code. -/
def httpErrorMsg (status : Nat) (reason url : String) : String :=
  if status < 500 then
    toString status ++ " Client Error: " ++ reason ++ " for url: " ++ url
  else
    toString status ++ " Server Error: " ++ reason ++ " for url: " ++ url

/-- Extraction of the completion text from the parsed response body:
`r.json()["choices"][0]["message"]["content"].strip()` (line 113). -/
def extractContent (body : Json) : Except PyExc String := do
  let choices ← body.getKey "choices"
  let c0 ← choices.getIdx 0
  let msg ← c0.getKey "message"
  let content ← msg.getKey "content"
  content.stripAttr

/-- The declared return type of `pipe` is `Union[str, Generator, Iterator]`;
generators and iterators are modelled abstractly. -/
inductive PipeReturn where
  | str : String → PipeReturn
  | gen : Nat → PipeReturn
  | iter : Nat → PipeReturn

/-- The `Pipeline` object: its fields as assigned in `__init__` and
`set_pipelines` (lines 30-70). -/
structure Pipeline where
  type : String
  name : String
  valves : Valves
  pipelines : List Json
  parameters : List Json

/-- Everything observable about one invocation of `pipe`: the outbound
request it assembles, its result (a returned value or an uncaught
exception), and the state of the `Pipeline` object after the call. -/
structure PipeEffect where
  request : HttpRequest
  result : Except PyExc PipeReturn
  selfAfter : Pipeline

/-- `Pipeline.pipe` (lines 87-120), parameterised by the outcome of its
single HTTP call.  The `try` block catches `RequestException` (raised by
`requests.post` on transport failure and by `raise_for_status` on a 4xx/5xx
status) and `KeyError`; every other exception propagates.  The method body
assigns nothing to `self`, so the object state after the call is the object
state before it. -/
def Pipeline.pipe (self : Pipeline) (user_message : String) (_model_id : String)
    (_messages : List Json) (_body : Json) (outcome : HttpOutcome) : PipeEffect :=
  let req := buildRequest self.valves user_message
  let result : Except PyExc PipeReturn :=
    match outcome with
    | .transportError msg =>
      .ok (.str ("❌ API Request Failed: " ++ msg))
    | .response status reason bodyJson =>
      if 400 ≤ status ∧ status < 600 then
        .ok (.str ("❌ API Request Failed: " ++ httpErrorMsg status reason req.url))
      else
        match extractContent bodyJson with
        | .ok sql_query => .ok (.str sql_query)
        | .error .keyError => .ok (.str "❌ OpenAI API response missing expected fields")
        | .error e => .error e
  { request := req, result := result, selfAfter := self }

/-- `__init__`'s construction of the valves (lines 36-48): each field is
`os.getenv(name, default)`, i.e. the environment value when the variable is
set and the hardcoded default otherwise. -/
def mkValves (env : String → Option String) : Valves :=
  { AZURE_OPENAI_API_KEY := (env "AZURE_OPENAI_API_KEY").getD "your-azure-openai-api-key"
    AZURE_OPENAI_ENDPOINT := (env "AZURE_OPENAI_ENDPOINT").getD "your-azure-openai-endpoint"
    AZURE_OPENAI_API_VERSION := (env "AZURE_OPENAI_API_VERSION").getD "2024-02-01"
    AZURE_OPENAI_MODEL := (env "AZURE_OPENAI_MODEL").getD "gpt-4"
    SQL_SERVER := (env "SQL_SERVER").getD "localhost"
    SQL_DATABASE := (env "SQL_DATABASE").getD "testdb"
    SQL_USERNAME := (env "SQL_USERNAME").getD "testuser"
    SQL_PASSWORD := (env "SQL_PASSWORD").getD "testpassword"
    SQL_DRIVER := (env "SQL_DRIVER").getD "PostgreSQL Driver" }

/-- The pipeline list registered by `set_pipelines` (lines 55-57). -/
def registeredPipelines : List Json :=
  [.obj [("id", .str "azure-text-to-sql"), ("name", .str "Azure OpenAI Text-to-SQL")]]

/-- The parameter list registered by `set_pipelines` (lines 60-70). -/
def registeredParameters : List Json :=
  [.obj [("name", .str "AZURE_OPENAI_API_KEY"), ("type", .str "string"), ("secret", .bool true)],
   .obj [("name", .str "AZURE_OPENAI_ENDPOINT"), ("type", .str "string")],
   .obj [("name", .str "AZURE_OPENAI_API_VERSION"), ("type", .str "string")],
   .obj [("name", .str "AZURE_OPENAI_MODEL"), ("type", .str "string")],
   .obj [("name", .str "SQL_SERVER"), ("type", .str "string")],
   .obj [("name", .str "SQL_DATABASE"), ("type", .str "string")],
   .obj [("name", .str "SQL_USERNAME"), ("type", .str "string")],
   .obj [("name", .str "SQL_PASSWORD"), ("type", .str "string"), ("secret", .bool true)],
   .obj [("name", .str "SQL_DRIVER"), ("type", .str "string")]]

/-- `Pipeline.__init__` (lines 30-51), parameterised by the process
environment. -/
def Pipeline.init (env : String → Option String) : Pipeline :=
  { type := "manifold"
    name := "Azure OpenAI Text-to-SQL Pipeline"
    valves := mkValves env
    pipelines := registeredPipelines
    parameters := registeredParameters }

/-- A well-formed success body `{"choices": [{"message": {"content": s}}]}`. -/
def mkGoodBody (s : String) : Json :=
  .obj [("choices", .arr [.obj [("message", .obj [("content", .str s)])]])]

/-- A concrete `Pipeline` (defaults-only environment), used to instantiate
universally quantified results at concrete inputs. -/
def pipelineDflt : Pipeline := Pipeline.init (fun _ => none)

/-- The set of HTTP outcomes that the `try`/`except` of `pipe` actually
converts into a returned error string: a transport failure, a status code
that `raise_for_status` flags (400-599), or a body whose field extraction
fails with a missing dictionary key (`KeyError`). -/
def handledOutcome : HttpOutcome → Prop
  | .transportError _ => True
  | .response status _ bodyJson =>
      (400 ≤ status ∧ status < 600) ∨ extractContent bodyJson = .error .keyError

/-- Unfolding lemma: the result of `pipe` when `requests.post` raises a
transport-level `RequestException`. -/
theorem pipe_result_transport (self : Pipeline) (um mid : String) (msgs : List Json)
    (body : Json) (msg : String) :
    (Pipeline.pipe self um mid msgs body (.transportError msg)).result
      = .ok (.str ("❌ API Request Failed: " ++ msg)) := rfl

/-- Unfolding lemma: the result of `pipe` when `requests.post` yields an HTTP
response. -/
theorem pipe_result_response (self : Pipeline) (um mid : String) (msgs : List Json)
    (body : Json) (status : Nat) (reason : String) (bj : Json) :
    (Pipeline.pipe self um mid msgs body (.response status reason bj)).result
      = if 400 ≤ status ∧ status < 600 then
          .ok (.str ("❌ API Request Failed: "
              ++ httpErrorMsg status reason (buildRequest self.valves um).url))
        else
          match extractContent bj with
          | .ok sql_query => .ok (.str sql_query)
          | .error .keyError => .ok (.str "❌ OpenAI API response missing expected fields")
          | .error e => .error e := rfl

/-- C1 counterexample: the claim fails as stated.  (1) A 200 response with
body `{"choices": []}` lacks the expected nested text field, yet `pipe` does
not return an error string: the subscript `[0]` raises `IndexError`, which
the `except` clauses (catching only `RequestException` and `KeyError`) let
propagate, so the invocation does not resolve to a string.  (2) A non-2xx
status (303) with a well-formed body is not reported as an error at all:
`raise_for_status` only raises for 400-599, so `pipe` returns the parsed
content, which does not begin with the error marker. -/
theorem pipe_unhandled_outcome_cex :
    (Pipeline.pipe pipelineDflt "q" "m" [] Json.null
        (.response 200 "OK" (Json.obj [("choices", Json.arr [])]))).result
      = .error PyExc.indexError
    ∧ (Pipeline.pipe pipelineDflt "q" "m" [] Json.null
        (.response 303 "See Other" (mkGoodBody "SELECT 2;"))).result
      = .ok (.str "SELECT 2;")
    ∧ ¬ ∃ t, "SELECT 2;" = "❌" ++ t := by
  refine ⟨rfl, rfl, ?_⟩
  rintro ⟨t, ht⟩
  have hd := congrArg String.data ht
  rw [String.data_append] at hd
  simp at hd

/-- C1 (amended): for every HTTP outcome the `try`/`except` of `pipe`
actually handles — a transport/connection error, a 4xx/5xx status, or a
response body whose extraction of the nested text field fails with a missing
dictionary key — `pipe` returns a human-readable error string (beginning
with the ❌ marker) to the caller and lets no exception propagate. -/
theorem pipe_handled_outcomes_return_marked_string (self : Pipeline)
    (um mid : String) (msgs : List Json) (body : Json) (outcome : HttpOutcome)
    (h : handledOutcome outcome) :
    ∃ t, (Pipeline.pipe self um mid msgs body outcome).result = .ok (.str ("❌" ++ t)) := by
  cases outcome with
  | transportError msg =>
    refine ⟨" API Request Failed: " ++ msg, ?_⟩
    rw [pipe_result_transport, ← String.append_assoc]
    rfl
  | response status reason bj =>
    by_cases hs : 400 ≤ status ∧ status < 600
    · refine ⟨" API Request Failed: "
          ++ httpErrorMsg status reason (buildRequest self.valves um).url, ?_⟩
      rw [pipe_result_response, if_pos hs, ← String.append_assoc]
      rfl
    · rcases h with h | h
      · exact absurd h hs
      · refine ⟨" OpenAI API response missing expected fields", ?_⟩
        rw [pipe_result_response, if_neg hs, h]
        rfl

/-- C1 witness: a concrete transport error resolves to a ❌-marked string. -/
theorem pipe_handled_outcomes_return_marked_string_witness :
    handledOutcome (.transportError "Connection refused")
    ∧ ∃ t, (Pipeline.pipe pipelineDflt "q" "m" [] Json.null
        (.transportError "Connection refused")).result = .ok (.str ("❌" ++ t)) :=
  ⟨trivial, pipe_handled_outcomes_return_marked_string pipelineDflt "q" "m" [] Json.null
      (.transportError "Connection refused") trivial⟩

/-- C2: on a successful (2xx) response whose JSON body is
`{"choices": [{"message": {"content": s}}]}`, `pipe` returns `s` with
leading and trailing whitespace stripped. -/
theorem pipe_success_returns_stripped_content (self : Pipeline) (um mid : String)
    (msgs : List Json) (body : Json) (status : Nat) (reason s : String)
    (h1 : 200 ≤ status) (h2 : status < 300) :
    (Pipeline.pipe self um mid msgs body (.response status reason (mkGoodBody s))).result
      = .ok (.str (pyStrip s)) := by
  rw [pipe_result_response, if_neg (by omega)]
  rfl

/-- C2 witness: the body `{"choices":[{"message":{"content":"SELECT 1;"}}]}`
at status 200 yields exactly `"SELECT 1;"`. -/
theorem pipe_success_returns_stripped_content_witness :
    200 ≤ 200 ∧ 200 < 300
    ∧ (Pipeline.pipe pipelineDflt "q" "m" [] Json.null
        (.response 200 "OK" (mkGoodBody "SELECT 1;"))).result = .ok (.str "SELECT 1;") :=
  ⟨by decide, by decide,
   pipe_success_returns_stripped_content pipelineDflt "q" "m" [] Json.null 200 "OK"
     "SELECT 1;" (by decide) (by decide)⟩

/-- C3: for every non-empty `user_message`, the `content` of the single chat
message in the outbound request body built by `pipe` is the fixed
instruction text with `user_message` appended, so the prompt contains
`user_message` verbatim as a substring. -/
theorem pipe_prompt_contains_user_message (self : Pipeline) (um mid : String)
    (msgs : List Json) (body : Json) (outcome : HttpOutcome) (_hne : um ≠ "") :
    (Pipeline.pipe self um mid msgs body outcome).request.payload.getKey "messages"
        = .ok (.arr [.obj [("role", .str "user"), ("content", .str (instructionText ++ um))]])
      ∧ ∃ a b, buildPrompt um = a ++ um ++ b := by
  refine ⟨rfl, instructionText, "", ?_⟩
  rw [String.append_empty]
  rfl

/-- C3 witness at the concrete input "List all employees". -/
theorem pipe_prompt_contains_user_message_witness :
    ("List all employees" : String) ≠ ""
    ∧ ((Pipeline.pipe pipelineDflt "List all employees" "m" [] Json.null
          (.transportError "x")).request.payload.getKey "messages"
        = .ok (.arr [.obj [("role", .str "user"),
                           ("content", .str (instructionText ++ "List all employees"))]])
      ∧ ∃ a b, buildPrompt "List all employees" = a ++ "List all employees" ++ b) :=
  ⟨by decide,
   pipe_prompt_contains_user_message pipelineDflt "List all employees" "m" [] Json.null
     (.transportError "x") (by decide)⟩

/-- C4: for every invocation, the outbound request assembled by `pipe` has
URL `{endpoint}/openai/deployments/{model}/chat/completions?api-version={version}`,
carries the `api-key` header set to the configured key, and has JSON body
`{"model": model, "messages": [{"role": "user", "content": prompt}]}` with
exactly one message, of role `"user"`. -/
theorem pipe_request_shape (self : Pipeline) (um mid : String) (msgs : List Json)
    (body : Json) (outcome : HttpOutcome) :
    (Pipeline.pipe self um mid msgs body outcome).request.url
        = self.valves.AZURE_OPENAI_ENDPOINT ++ "/openai/deployments/"
            ++ self.valves.AZURE_OPENAI_MODEL ++ "/chat/completions?api-version="
            ++ self.valves.AZURE_OPENAI_API_VERSION
      ∧ (Pipeline.pipe self um mid msgs body outcome).request.headers.lookup "api-key"
        = some self.valves.AZURE_OPENAI_API_KEY
      ∧ (Pipeline.pipe self um mid msgs body outcome).request.payload
        = .obj [("model", .str self.valves.AZURE_OPENAI_MODEL),
                ("messages", .arr [.obj [("role", .str "user"),
                                         ("content", .str (buildPrompt um))]])] :=
  ⟨rfl, rfl, rfl⟩

/-- C5 counterexample: the claim fails as stated for non-2xx statuses outside
400-599.  A 304 response is a non-success (non-2xx) status, yet `pipe`
returns the parsed content, which does not begin with the error marker:
`raise_for_status` raises only for 4xx/5xx. -/
theorem pipe_non_error_status_cex :
    (Pipeline.pipe pipelineDflt "q" "m" [] Json.null
        (.response 304 "Not Modified" (mkGoodBody "SELECT 1;"))).result
      = .ok (.str "SELECT 1;")
    ∧ ¬ ∃ t, "SELECT 1;" = "❌ API Request Failed: " ++ t := by
  refine ⟨rfl, ?_⟩
  rintro ⟨t, ht⟩
  have hl := congrArg String.length ht
  rw [String.length_append] at hl
  have h9 : ("SELECT 1;" : String).length = 9 := rfl
  have h22 : ("❌ API Request Failed: " : String).length = 22 := rfl
  omega

/-- C5 (amended): if the HTTP call results in a 4xx/5xx status (the statuses
`raise_for_status` flags as errors, e.g. 500) or a transport error, `pipe`
returns the string `"❌ API Request Failed: "` followed by the description of
the underlying failure, and raises no unhandled fault. -/
theorem pipe_error_status_marked (self : Pipeline) (um mid : String)
    (msgs : List Json) (body : Json) :
    (∀ (status : Nat) (reason : String) (bj : Json), 400 ≤ status → status < 600 →
      (Pipeline.pipe self um mid msgs body (.response status reason bj)).result
        = .ok (.str ("❌ API Request Failed: "
            ++ httpErrorMsg status reason (buildRequest self.valves um).url)))
    ∧ (∀ msg : String,
      (Pipeline.pipe self um mid msgs body (.transportError msg)).result
        = .ok (.str ("❌ API Request Failed: " ++ msg))) := by
  refine ⟨?_, ?_⟩
  · intro status reason bj h1 h2
    rw [pipe_result_response, if_pos ⟨h1, h2⟩]
  · intro msg
    rw [pipe_result_transport]

/-- C5 witness: a concrete 500 response yields the marked error string with
the failure description. -/
theorem pipe_error_status_marked_witness :
    400 ≤ 500 ∧ 500 < 600
    ∧ (Pipeline.pipe pipelineDflt "q" "m" [] Json.null
        (.response 500 "Internal Server Error" Json.null)).result
      = .ok (.str ("❌ API Request Failed: "
          ++ httpErrorMsg 500 "Internal Server Error" (buildRequest pipelineDflt.valves "q").url)) :=
  ⟨by decide, by decide,
   (pipe_error_status_marked pipelineDflt "q" "m" [] Json.null).1 500
     "Internal Server Error" Json.null (by decide) (by decide)⟩

/-- C6: on a 200 response whose JSON object body is missing `"choices"`
(e.g. `{}`), or whose first choice is an object missing `"message"`, or whose
message object is missing `"content"`, `pipe` returns the fixed
missing-expected-fields error string rather than raising a fault. -/
theorem pipe_missing_fields_error (self : Pipeline) (um mid : String)
    (msgs : List Json) (body : Json) (reason : String) :
    (∀ kvs : List (String × Json), kvs.lookup "choices" = none →
      (Pipeline.pipe self um mid msgs body (.response 200 reason (Json.obj kvs))).result
        = .ok (.str "❌ OpenAI API response missing expected fields"))
    ∧ (∀ (m : List (String × Json)) (rest : List Json), m.lookup "message" = none →
      (Pipeline.pipe self um mid msgs body (.response 200 reason
          (Json.obj [("choices", Json.arr (Json.obj m :: rest))]))).result
        = .ok (.str "❌ OpenAI API response missing expected fields"))
    ∧ (∀ (m mm : List (String × Json)) (rest : List Json),
        m.lookup "message" = some (Json.obj mm) → mm.lookup "content" = none →
      (Pipeline.pipe self um mid msgs body (.response 200 reason
          (Json.obj [("choices", Json.arr (Json.obj m :: rest))]))).result
        = .ok (.str "❌ OpenAI API response missing expected fields")) := by
  refine ⟨?_, ?_, ?_⟩
  · intro kvs hk
    rw [pipe_result_response, if_neg (by omega)]
    simp only [extractContent, Json.getKey, hk]
    rfl
  · intro m rest hm
    rw [pipe_result_response, if_neg (by omega)]
    simp [extractContent, Json.getKey, Json.getIdx, List.lookup, bind, Except.bind, hm]
  · intro m mm rest hm hc
    rw [pipe_result_response, if_neg (by omega)]
    simp [extractContent, Json.getKey, Json.getIdx, List.lookup, bind, Except.bind, hm, hc]

/-- C6 witness: a 200 response with body `{}` yields the fixed
missing-expected-fields error string. -/
theorem pipe_missing_fields_error_witness :
    List.lookup "choices" ([] : List (String × Json)) = none
    ∧ (Pipeline.pipe pipelineDflt "q" "m" [] Json.null
        (.response 200 "OK" (Json.obj []))).result
      = .ok (.str "❌ OpenAI API response missing expected fields") :=
  ⟨rfl, (pipe_missing_fields_error pipelineDflt "q" "m" [] Json.null "OK").1 [] rfl⟩

/-- C7: for each of the nine configuration names, `__init__` sets the valve
to the environment value when the variable is set, and to its hardcoded
default when it is unset (captured by `Option.getD` over the environment). -/
theorem init_valves_env_defaults (env : String → Option String) :
    (Pipeline.init env).valves.AZURE_OPENAI_API_KEY
        = (env "AZURE_OPENAI_API_KEY").getD "your-azure-openai-api-key"
    ∧ (Pipeline.init env).valves.AZURE_OPENAI_ENDPOINT
        = (env "AZURE_OPENAI_ENDPOINT").getD "your-azure-openai-endpoint"
    ∧ (Pipeline.init env).valves.AZURE_OPENAI_API_VERSION
        = (env "AZURE_OPENAI_API_VERSION").getD "2024-02-01"
    ∧ (Pipeline.init env).valves.AZURE_OPENAI_MODEL
        = (env "AZURE_OPENAI_MODEL").getD "gpt-4"
    ∧ (Pipeline.init env).valves.SQL_SERVER = (env "SQL_SERVER").getD "localhost"
    ∧ (Pipeline.init env).valves.SQL_DATABASE = (env "SQL_DATABASE").getD "testdb"
    ∧ (Pipeline.init env).valves.SQL_USERNAME = (env "SQL_USERNAME").getD "testuser"
    ∧ (Pipeline.init env).valves.SQL_PASSWORD = (env "SQL_PASSWORD").getD "testpassword"
    ∧ (Pipeline.init env).valves.SQL_DRIVER = (env "SQL_DRIVER").getD "PostgreSQL Driver" :=
  ⟨rfl, rfl, rfl, rfl, rfl, rfl, rfl, rfl, rfl⟩

/-- C8: the observable effect of `pipe` — the outbound request, the returned
value, and the object state — does not depend on the `model_id`, `messages`
or `body` arguments: two invocations differing only in those arguments are
identical. -/
theorem pipe_ignores_model_id_messages_body (self : Pipeline) (um : String)
    (mid1 mid2 : String) (msgs1 msgs2 : List Json) (body1 body2 : Json)
    (outcome : HttpOutcome) :
    Pipeline.pipe self um mid1 msgs1 body1 outcome
      = Pipeline.pipe self um mid2 msgs2 body2 outcome := rfl

/-- C9: `pipe` mutates no local state: after any invocation the `Pipeline`
object — all nine valves, `type`, `name`, `pipelines` and `parameters` — is
unchanged. -/
theorem pipe_mutates_no_state (self : Pipeline) (um mid : String) (msgs : List Json)
    (body : Json) (outcome : HttpOutcome) :
    (Pipeline.pipe self um mid msgs body outcome).selfAfter = self
    ∧ (Pipeline.pipe self um mid msgs body outcome).selfAfter.valves = self.valves
    ∧ (Pipeline.pipe self um mid msgs body outcome).selfAfter.type = self.type
    ∧ (Pipeline.pipe self um mid msgs body outcome).selfAfter.name = self.name
    ∧ (Pipeline.pipe self um mid msgs body outcome).selfAfter.pipelines = self.pipelines
    ∧ (Pipeline.pipe self um mid msgs body outcome).selfAfter.parameters = self.parameters :=
  ⟨rfl, rfl, rfl, rfl, rfl, rfl⟩

/-- C10: every normal return of `pipe` is a plain string — the stripped
completion text or one of the two error strings — never a generator or
iterator. -/
theorem pipe_returns_plain_string (self : Pipeline) (um mid : String)
    (msgs : List Json) (body : Json) (outcome : HttpOutcome) (r : PipeReturn)
    (h : (Pipeline.pipe self um mid msgs body outcome).result = .ok r) :
    ∃ s, r = PipeReturn.str s := by
  cases outcome with
  | transportError msg =>
    rw [pipe_result_transport] at h
    injection h with h2
    exact ⟨_, h2.symm⟩
  | response status reason bj =>
    rw [pipe_result_response] at h
    by_cases hs : 400 ≤ status ∧ status < 600
    · rw [if_pos hs] at h
      injection h with h2
      exact ⟨_, h2.symm⟩
    · rw [if_neg hs] at h
      cases hx : extractContent bj with
      | ok s => rw [hx] at h; injection h with h2; exact ⟨_, h2.symm⟩
      | error e =>
        rw [hx] at h
        cases e with
        | keyError => injection h with h2; exact ⟨_, h2.symm⟩
        | requestException m => simp at h
        | indexError => simp at h
        | typeError => simp at h
        | attributeError => simp at h

/-- C10 witness: the value returned on a concrete successful invocation is a
plain string. -/
theorem pipe_returns_plain_string_witness :
    (Pipeline.pipe pipelineDflt "q" "m" [] Json.null
        (.response 200 "OK" (mkGoodBody "SELECT 1;"))).result
      = .ok (.str "SELECT 1;")
    ∧ ∃ s, PipeReturn.str "SELECT 1;" = PipeReturn.str s :=
  ⟨rfl,
   pipe_returns_plain_string pipelineDflt "q" "m" [] Json.null
     (.response 200 "OK" (mkGoodBody "SELECT 1;")) (.str "SELECT 1;") rfl⟩
